import Mathlib

/-!
Shallow embedding of the toolbar fragment of expo-router
(`packages/expo-router/src/toolbar/elements.tsx` and
`packages/expo-router/src/toolbar/index.ts`).

The components `ToolbarButton`, `ToolbarSpacer`, `ToolbarView` each call
`useMemo(() => nanoid(), [])` for a per-instance identifier and emit one
`RouterToolbarItem` element for the native bridge; `ToolbarHost` wraps its
children in `InternalLinkPreviewContext` with a fixed value; `ToolbarMenu`
and `ToolbarMenuAction` are aliases of `LinkMenu` / `LinkMenuAction`.

A component render is modelled as a function of its props, its memo cell
(the state backing `useMemo`) and the fresh-identifier supply, returning
the emitted element together with the updated memo cell and supply.
-/

namespace ExpoToolbar

/-- JS numbers are modelled as rationals (NaN and the infinities are not
modelled; no claim involves them). -/
abbrev JSNumber := ℚ

/-- Press-callback handles. The toolbar code never calls or inspects a
callback, it only forwards it, so callbacks are opaque values. -/
abbrev Callback := Nat

/-- react-native `ColorValue`, opaque to this fragment. -/
abbrev ColorValue := String

/-- SF Symbol names, opaque to this fragment. -/
abbrev SFSymbol := String

/-- Identifiers produced by `nanoid`. They are opaque strings in the source;
the code only ever forwards them and (implicitly, in the native host)
compares them, so they are modelled as naturals drawn from a fresh supply. -/
abbrev Identifier := Nat

/-- Modelled from the spec: the identifier generation utility
(`nanoid` from `nanoid/non-secure`) is named an out-of-scope external
collaborator. The spec's invariant is that each generated identifier is
"unique per mounted instance; never reused while the instance is alive",
so generation is modelled as a deterministic fresh supply: each call
returns the current supply value and advances the supply. -/
def nanoid (supply : Nat) : Identifier × Nat :=
  (supply, supply + 1)

/-- React `useMemo(factory, [])` with an empty dependency list, as used by
the three item components: on the first render of an instance the factory
runs (consuming supply) and its value is stored in the instance's memo
cell; on every later render the stored value is returned unchanged. -/
def useMemo (factory : Nat → Identifier × Nat) :
    Option Identifier → Nat → Identifier × Option Identifier × Nat
  | some v, supply => (v, some v, supply)
  | none, supply =>
      let r := factory supply
      (r.1, some r.1, r.2)

/-- The fragment of `React.ReactNode` this code inspects: a Button's
`children` is only ever passed to JS `String(...)`. An absent prop is
`undefined` at runtime. -/
inductive ReactNode where
  | undef
  | null
  | str (s : String)
  deriving DecidableEq

/-- JS `String(x)` on the modelled values. -/
def jsString : ReactNode → String
  | .undef => "undefined"
  | .null => "null"
  | .str s => s

/-- JS truthiness of an optional number, as in `width ? ... : ...`:
`undefined` and `0` are falsy, every other number is truthy. -/
def jsTruthy : Option JSNumber → Bool
  | none => false
  | some x => x != 0

/-- `position` values of a react-native style. -/
inductive PositionValue where
  | absolute
  | relative
  deriving DecidableEq

/-- The slice of react-native `ViewStyle` relevant to the toolbar claims. -/
structure ViewStyle where
  position : Option PositionValue := none
  width : Option JSNumber := none
  height : Option JSNumber := none
  deriving DecidableEq

/-- react-native resolution of a flattened style array (`StyleSheet.flatten`
semantics): later entries override earlier ones field by field, and a
missing field falls through to the value accumulated so far. -/
def resolvePosition (styles : List ViewStyle) : Option PositionValue :=
  styles.foldl
    (fun acc s =>
      match s.position with
      | some p => some p
      | none => acc)
    none

/-- The spacer classification tag sent to the native bridge. -/
inductive SpacerType where
  | fixedSpacer
  | fluidSpacer
  deriving DecidableEq

/-- `ToolbarButtonProps` from elements.tsx. Every field is optional; an
absent `children` is `undefined` (`ReactNode.undef`). -/
structure ToolbarButtonProps where
  children : ReactNode := .undef
  sf : Option SFSymbol := none
  width : Option JSNumber := none
  onPress : Option Callback := none
  tintColor : Option ColorValue := none
  hidden : Option Bool := none
  sharesBackground : Option Bool := none
  hidesSharedBackground : Option Bool := none
  deriving DecidableEq

/-- `ToolbarSpacerProps` from elements.tsx. -/
structure ToolbarSpacerProps where
  width : Option JSNumber := none
  hidden : Option Bool := none
  sharesBackground : Option Bool := none
  hidesSharedBackground : Option Bool := none
  deriving DecidableEq

/-- `ToolbarViewProps` from elements.tsx. The `style` prop is a
`StyleProp`, i.e. an arbitrarily nested array of style objects; it is
modelled already flattened to a list (react-native flattens left to
right, preserving order, before resolving). -/
structure ToolbarViewProps where
  hidesSharedBackground : Option Bool := none
  sharesBackground : Option Bool := none
  children : ReactNode := .undef
  hidden : Option Bool := none
  style : List ViewStyle := []
  deriving DecidableEq

/-- `ToolbarProps` from elements.tsx: the root component's props. -/
structure ToolbarProps where
  children : ReactNode := .undef
  deriving DecidableEq

/-- Modelled from the spec: `LinkMenuProps` belongs to the sibling link
module (`../link/elements`), an external collaborator whose source is not
part of this fragment; only the identity of the re-exported components
matters to the claims, so the props carry a representative field set. -/
structure LinkMenuProps where
  title : Option String := none
  icon : Option String := none
  children : ReactNode := .undef
  deriving DecidableEq

/-- Modelled from the spec: `LinkMenuActionProps` from the sibling link
module, external to this fragment; representative field set only. -/
structure LinkMenuActionProps where
  title : Option String := none
  icon : Option String := none
  onPress : Option Callback := none
  destructive : Option Bool := none
  deriving DecidableEq

/-- The per-item record accepted by the native bridge `RouterToolbarItem`
(§6 of the spec: the native bridge contract). -/
structure RouterToolbarItemProps where
  identifier : Identifier
  title : Option String := none
  systemImageName : Option SFSymbol := none
  width : Option JSNumber := none
  type : Option SpacerType := none
  onSelected : Option Callback := none
  tintColor : Option ColorValue := none
  hidden : Option Bool := none
  sharesBackground : Option Bool := none
  hidesSharedBackground : Option Bool := none

/-- The value type of `InternalLinkPreviewContext`. -/
structure InternalLinkPreviewContextValue where
  isVisible : Bool
  href : String
  deriving DecidableEq

/-- The element trees returned by the toolbar components. -/
inductive Element where
  | routerToolbarItem (props : RouterToolbarItemProps) (child : Option Element)
  | rnView (style : List ViewStyle) (children : ReactNode)
  | contextProvider (value : InternalLinkPreviewContextValue) (child : Element)
  | routerToolbarHost (props : ToolbarProps)
  | linkMenu (props : LinkMenuProps)
  | linkMenuAction (props : LinkMenuActionProps)

/-- The result of one render of an item component: the emitted element,
the instance's memo cell after the render, and the remaining supply. -/
structure RenderResult where
  element : Element
  memo : Option Identifier
  supply : Nat

/-- `ToolbarButton` from elements.tsx:
`const id = useMemo(() => nanoid(), []);` then
`<RouterToolbarItem {...rest} onSelected={onPress} identifier={id}
title={String(children)} systemImageName={sf} />`, where `rest` is every
prop other than `children`, `sf`, `onPress`. -/
def ToolbarButton (props : ToolbarButtonProps) (memo : Option Identifier)
    (supply : Nat) : RenderResult :=
  let u := useMemo nanoid memo supply
  { element := .routerToolbarItem
      { identifier := u.1
        title := some (jsString props.children)
        systemImageName := props.sf
        width := props.width
        onSelected := props.onPress
        tintColor := props.tintColor
        hidden := props.hidden
        sharesBackground := props.sharesBackground
        hidesSharedBackground := props.hidesSharedBackground }
      none
    memo := u.2.1
    supply := u.2.2 }

/-- `ToolbarSpacer` from elements.tsx:
`const id = useMemo(() => nanoid(), []);` then
`<RouterToolbarItem {...rest} identifier={id}
type={width ? 'fixedSpacer' : 'fluidSpacer'} width={width} />`. -/
def ToolbarSpacer (props : ToolbarSpacerProps) (memo : Option Identifier)
    (supply : Nat) : RenderResult :=
  let u := useMemo nanoid memo supply
  { element := .routerToolbarItem
      { identifier := u.1
        type := some (if jsTruthy props.width
          then SpacerType.fixedSpacer else SpacerType.fluidSpacer)
        width := props.width
        hidden := props.hidden
        sharesBackground := props.sharesBackground
        hidesSharedBackground := props.hidesSharedBackground }
      none
    memo := u.2.1
    supply := u.2.2 }

/-- The style object literal `{ position: 'absolute' }` from
`ToolbarView`. -/
def absolutePositionStyle : ViewStyle :=
  { position := some PositionValue.absolute }

/-- `ToolbarView` from elements.tsx:
`const id = useMemo(() => nanoid(), []);` then
`<RouterToolbarItem {...rest} identifier={id}>
<View style={[style, { position: 'absolute' }]}>{children}</View>
</RouterToolbarItem>`. The style array places the caller style first and
the absolute-position object last. -/
def ToolbarView (props : ToolbarViewProps) (memo : Option Identifier)
    (supply : Nat) : RenderResult :=
  let u := useMemo nanoid memo supply
  { element := .routerToolbarItem
      { identifier := u.1
        hidden := props.hidden
        sharesBackground := props.sharesBackground
        hidesSharedBackground := props.hidesSharedBackground }
      (some (.rnView (props.style ++ [absolutePositionStyle]) props.children))
    memo := u.2.1
    supply := u.2.2 }

/-- `ToolbarHost` from elements.tsx:
`<InternalLinkPreviewContext value={{ isVisible: false, href: '' }}>
<RouterToolbarHost {...props} /></InternalLinkPreviewContext>`. -/
def ToolbarHost (props : ToolbarProps) : Element :=
  .contextProvider { isVisible := false, href := "" }
    (.routerToolbarHost props)

/-- Modelled from the spec: `LinkMenu` is implemented in the sibling link
module (`../link/elements`), an external collaborator not part of this
fragment; its rendering is opaque here and only its identity matters. -/
def LinkMenu (props : LinkMenuProps) : Element :=
  .linkMenu props

/-- Modelled from the spec: `LinkMenuAction` from the sibling link module,
external to this fragment; opaque rendering, only identity matters. -/
def LinkMenuAction (props : LinkMenuActionProps) : Element :=
  .linkMenuAction props

/-- `export const ToolbarMenu = LinkMenu;` from elements.tsx. -/
def ToolbarMenu := LinkMenu

/-- `export const ToolbarMenuAction = LinkMenuAction;` from elements.tsx. -/
def ToolbarMenuAction := LinkMenuAction

/-- The shape of the composite `Toolbar` export built in index.ts. -/
structure ToolbarAPI where
  host : ToolbarProps → Element
  Menu : LinkMenuProps → Element
  MenuAction : LinkMenuActionProps → Element
  Button : ToolbarButtonProps → Option Identifier → Nat → RenderResult
  Spacer : ToolbarSpacerProps → Option Identifier → Nat → RenderResult
  View : ToolbarViewProps → Option Identifier → Nat → RenderResult

/-- `Object.assign(ToolbarHost, { Menu: ToolbarMenu, MenuAction:
ToolbarMenuAction, Button: ToolbarButton, Spacer: ToolbarSpacer, View:
ToolbarView })` from index.ts. -/
def Toolbar : ToolbarAPI :=
  { host := ToolbarHost
    Menu := ToolbarMenu
    MenuAction := ToolbarMenuAction
    Button := ToolbarButton
    Spacer := ToolbarSpacer
    View := ToolbarView }

/-- One declared toolbar child together with its props. -/
inductive ComponentDecl where
  | button (props : ToolbarButtonProps)
  | spacer (props : ToolbarSpacerProps)
  | view (props : ToolbarViewProps)

/-- Rendering one declared child: dispatch to its component function. -/
def renderComponent : ComponentDecl → Option Identifier → Nat → RenderResult
  | .button p, memo, supply => ToolbarButton p memo supply
  | .spacer p, memo, supply => ToolbarSpacer p memo supply
  | .view p, memo, supply => ToolbarView p memo supply

/-- The item record an element carries to the native bridge, when it is a
`RouterToolbarItem`. -/
def itemOf : Element → Option RouterToolbarItemProps
  | .routerToolbarItem p _ => some p
  | _ => none

/-- The child element nested inside a `RouterToolbarItem`. -/
def childOf : Element → Option Element
  | .routerToolbarItem _ c => c
  | _ => none

/-- The identifier an element carries to the native bridge. -/
def elemIdentifier : Element → Option Identifier
  | .routerToolbarItem p _ => some p.identifier
  | _ => none

/-- Mounting a list of toolbar children: each instance starts with an
empty memo cell and the fresh-identifier supply is threaded left to
right. Returns, in order, the identifier each mounted instance passes to
the native bridge. -/
def mountIds (supply : Nat) : List ComponentDecl → List (Option Identifier)
  | [] => []
  | c :: cs =>
      let r := renderComponent c none supply
      elemIdentifier r.element :: mountIds r.supply cs

/-- Successive re-renders of one mounted instance: the memo cell and the
supply are threaded through; each entry is the identifier of that
render's emitted element. Props may change freely between renders. -/
def renderTrace (memo : Option Identifier) (supply : Nat) :
    List ComponentDecl → List (Option Identifier)
  | [] => []
  | c :: cs =>
      let r := renderComponent c memo supply
      elemIdentifier r.element :: renderTrace r.memo r.supply cs

theorem renderComponent_mount (c : ComponentDecl) (s : Nat) :
    elemIdentifier (renderComponent c none s).element = some s ∧
    (renderComponent c none s).memo = some s ∧
    (renderComponent c none s).supply = s + 1 := by
  cases c <;> exact ⟨rfl, rfl, rfl⟩

theorem renderComponent_rerender (c : ComponentDecl) (id : Identifier)
    (s : Nat) :
    elemIdentifier (renderComponent c (some id) s).element = some id ∧
    (renderComponent c (some id) s).memo = some id ∧
    (renderComponent c (some id) s).supply = s := by
  cases c <;> exact ⟨rfl, rfl, rfl⟩

theorem mountIds_eq (supply : Nat) (cs : List ComponentDecl) :
    mountIds supply cs = (List.range' supply cs.length).map some := by
  induction cs generalizing supply with
  | nil => rfl
  | cons c cs ih =>
      rcases renderComponent_mount c supply with ⟨h1, _, h3⟩
      simp [mountIds, h1, h3, List.range', ih]

theorem renderTrace_memoized (id : Identifier) (s : Nat)
    (cs : List ComponentDecl) :
    renderTrace (some id) s cs = List.replicate cs.length (some id) := by
  induction cs generalizing s with
  | nil => rfl
  | cons c cs ih =>
      rcases renderComponent_rerender c id s with ⟨h1, h2, h3⟩
      simp only [renderTrace, h1, h2, h3, List.length_cons,
        List.replicate_succ, ih]

/-- Claim C1, counterexample: a Spacer with `width = 0` — a provided width —
is classified `fluidSpacer`, not `fixedSpacer`, because the conditional
`width ? 'fixedSpacer' : 'fluidSpacer'` treats the number 0 as falsy. -/
theorem c1_width_zero_counterexample :
    (∃ item, itemOf (ToolbarSpacer { width := some 0 } none 0).element
        = some item ∧ item.type = some SpacerType.fluidSpacer) ∧
    SpacerType.fluidSpacer ≠ SpacerType.fixedSpacer :=
  ⟨⟨_, rfl, rfl⟩, by decide⟩

/-- Claim C1 (amended): the classification forwarded to the native bridge
is `fixedSpacer` whenever a nonzero width is provided and `fluidSpacer`
whenever the width is absent or 0, and the provided width is forwarded
alongside the classification tag. -/
theorem c1_spacer_classification (props : ToolbarSpacerProps)
    (memo : Option ExpoToolbar.Identifier) (supply : Nat) :
    (∀ w, props.width = some w → w ≠ 0 →
      ∃ item, itemOf (ToolbarSpacer props memo supply).element = some item ∧
        item.type = some SpacerType.fixedSpacer) ∧
    (props.width = none →
      ∃ item, itemOf (ToolbarSpacer props memo supply).element = some item ∧
        item.type = some SpacerType.fluidSpacer) ∧
    (props.width = some 0 →
      ∃ item, itemOf (ToolbarSpacer props memo supply).element = some item ∧
        item.type = some SpacerType.fluidSpacer) ∧
    (∃ item, itemOf (ToolbarSpacer props memo supply).element = some item ∧
      item.width = props.width) := by
  refine ⟨?_, ?_, ?_, ⟨_, rfl, rfl⟩⟩
  · intro w hw hne
    refine ⟨_, rfl, ?_⟩
    simp [ToolbarSpacer, hw, jsTruthy, hne]
  · intro hw
    refine ⟨_, rfl, ?_⟩
    simp [ToolbarSpacer, hw, jsTruthy]
  · intro hw
    refine ⟨_, rfl, ?_⟩
    simp [ToolbarSpacer, hw, jsTruthy]

/-- Witness for the amended C1 at concrete inputs: width 5 classifies as
fixed, absent width and width 0 classify as fluid, and the width is
forwarded. -/
theorem c1_spacer_classification_witness :
    (∃ item, itemOf (ToolbarSpacer { width := some 5 } none 0).element
        = some item ∧ item.type = some SpacerType.fixedSpacer) ∧
    (∃ item, itemOf (ToolbarSpacer { width := none } none 0).element
        = some item ∧ item.type = some SpacerType.fluidSpacer) ∧
    (∃ item, itemOf (ToolbarSpacer { width := some 0 } none 0).element
        = some item ∧ item.type = some SpacerType.fluidSpacer) ∧
    (∃ item, itemOf (ToolbarSpacer { width := some 5 } none 0).element
        = some item ∧ item.width = some 5) :=
  ⟨(c1_spacer_classification { width := some 5 } none 0).1 5 rfl (by decide),
   (c1_spacer_classification { width := none } none 0).2.1 rfl,
   (c1_spacer_classification { width := some 0 } none 0).2.2.1 rfl,
   (c1_spacer_classification { width := some 5 } none 0).2.2.2⟩

/-- Claim C2: a Spacer rendered with width 20 produces a native item with
type `fixedSpacer` and width 20; a Spacer rendered with no width produces
a native item with type `fluidSpacer` and width undefined. The remaining
spacer props, the memo cell and the supply are arbitrary. -/
theorem c2_spacer_concrete (hidden sb hsb : Option Bool)
    (memo : Option ExpoToolbar.Identifier) (supply : Nat) :
    (∃ item, itemOf (ToolbarSpacer
        { width := some 20, hidden := hidden, sharesBackground := sb,
          hidesSharedBackground := hsb } memo supply).element = some item ∧
      item.type = some SpacerType.fixedSpacer ∧ item.width = some 20) ∧
    (∃ item, itemOf (ToolbarSpacer
        { width := none, hidden := hidden, sharesBackground := sb,
          hidesSharedBackground := hsb } memo supply).element = some item ∧
      item.type = some SpacerType.fluidSpacer ∧ item.width = none) := by
  refine ⟨⟨_, rfl, ?_, rfl⟩, ⟨_, rfl, rfl, rfl⟩⟩
  simp [ToolbarSpacer, jsTruthy]

/-- Claim C3: a Button rendered with children equal to the string
`"Search"` and no `sf` passes an item whose title is exactly `"Search"`
to the native bridge, whatever the other props, memo cell and supply. -/
theorem c3_button_search_title (width : Option JSNumber)
    (onPress : Option Callback) (tintColor : Option ColorValue)
    (hidden sb hsb : Option Bool) (memo : Option ExpoToolbar.Identifier)
    (supply : Nat) :
    ∃ item, itemOf (ToolbarButton
        { children := .str "Search", sf := none, width := width,
          onPress := onPress, tintColor := tintColor, hidden := hidden,
          sharesBackground := sb, hidesSharedBackground := hsb }
        memo supply).element = some item ∧
      item.title = some "Search" :=
  ⟨_, rfl, rfl⟩

/-- Claim C4: for every caller-supplied style, the wrapper container of a
View places `{ position: 'absolute' }` after the caller style in the
style array, and the resolved position of that array is `absolute`, so
any caller-supplied position is overridden. -/
theorem c4_view_absolute_position (props : ToolbarViewProps)
    (memo : Option ExpoToolbar.Identifier) (supply : Nat) :
    childOf (ToolbarView props memo supply).element
      = some (Element.rnView (props.style ++ [absolutePositionStyle])
          props.children) ∧
    resolvePosition (props.style ++ [absolutePositionStyle])
      = some PositionValue.absolute := by
  refine ⟨rfl, ?_⟩
  simp [resolvePosition, List.foldl_append, absolutePositionStyle]

/-- Claim C5: any two Button instances mounted in the same tree pass
distinct identifiers to the native bridge. (The proof holds for any two
instances, Buttons included.) -/
theorem c5_button_identifiers_distinct (supply : Nat)
    (cs : List ComponentDecl) (i j : Nat)
    (hi : i < cs.length) (hj : j < cs.length) (hij : i ≠ j)
    (hbi : ∃ p, cs.get ⟨i, hi⟩ = ComponentDecl.button p)
    (hbj : ∃ p, cs.get ⟨j, hj⟩ = ComponentDecl.button p) :
    (mountIds supply cs)[i]? ≠ (mountIds supply cs)[j]? := by
  rw [mountIds_eq]
  have hi' : i < ((List.range' supply cs.length).map some).length := by
    simpa using hi
  have hj' : j < ((List.range' supply cs.length).map some).length := by
    simpa using hj
  rw [List.getElem?_eq_getElem hi', List.getElem?_eq_getElem hj']
  simp only [List.getElem_map, List.getElem_range']
  intro h
  rw [Option.some_inj, Option.some_inj] at h
  omega

/-- Witness for C5: mounting two Buttons starting from supply 0 yields
identifiers at positions 0 and 1 that differ. -/
theorem c5_button_identifiers_distinct_witness :
    (mountIds 0 [ComponentDecl.button {}, ComponentDecl.button {}])[0]?
      ≠ (mountIds 0 [ComponentDecl.button {}, ComponentDecl.button {}])[1]? :=
  c5_button_identifiers_distinct 0
    [ComponentDecl.button {}, ComponentDecl.button {}] 0 1
    (by decide) (by decide) (by decide) ⟨{}, rfl⟩ ⟨{}, rfl⟩

/-- Claim C6: after a Button, Spacer or View instance is mounted, every
further render of that instance (any number, with props changing freely)
emits the same identifier the mount emitted — the memo cell fixes it for
the instance's lifetime. -/
theorem c6_identifier_memoized (c : ComponentDecl) (supply : Nat)
    (cs : List ComponentDecl) :
    renderTrace (renderComponent c none supply).memo
        (renderComponent c none supply).supply cs
      = List.replicate cs.length
          (elemIdentifier (renderComponent c none supply).element) := by
  rcases renderComponent_mount c supply with ⟨h1, h2, h3⟩
  rw [h1, h2, h3]
  exact renderTrace_memoized supply (supply + 1) cs

/-- Claim C7: `Toolbar.Menu` and `Toolbar.MenuAction` are
reference-identical to `LinkMenu` and `LinkMenuAction`: the re-exports
add no wrapping, so rendering `Toolbar.Menu` is exactly rendering
`LinkMenu`. -/
theorem c7_menu_reexports_identical :
    Toolbar.Menu = LinkMenu ∧ Toolbar.MenuAction = LinkMenuAction ∧
    ToolbarMenu = LinkMenu ∧ ToolbarMenuAction = LinkMenuAction :=
  ⟨rfl, rfl, rfl, rfl⟩

/-- Claim C8: for every props input, the root Toolbar component wraps the
native host in the preview-visibility context provider with the fixed
value `{ isVisible: false, href: '' }` and forwards the props unchanged
to the native host component. -/
theorem c8_host_fixed_context (props : ToolbarProps) :
    Toolbar.host props
      = Element.contextProvider { isVisible := false, href := "" }
          (Element.routerToolbarHost props) ∧
    ToolbarHost props
      = Element.contextProvider { isVisible := false, href := "" }
          (Element.routerToolbarHost props) :=
  ⟨rfl, rfl⟩

/-- Claim C9: a Button forwards `width`, `tintColor`, `hidden`,
`sharesBackground` and `hidesSharedBackground` to the native bridge item
unchanged, forwards `sf` under the name `systemImageName`, and forwards
`onPress` under the name `onSelected`, with unchanged values. -/
theorem c9_button_prop_forwarding (props : ToolbarButtonProps)
    (memo : Option ExpoToolbar.Identifier) (supply : Nat) :
    ∃ item, itemOf (ToolbarButton props memo supply).element = some item ∧
      item.width = props.width ∧
      item.tintColor = props.tintColor ∧
      item.hidden = props.hidden ∧
      item.sharesBackground = props.sharesBackground ∧
      item.hidesSharedBackground = props.hidesSharedBackground ∧
      item.systemImageName = props.sf ∧
      item.onSelected = props.onPress :=
  ⟨_, rfl, rfl, rfl, rfl, rfl, rfl, rfl, rfl⟩

/-- Claim C10: a Button rendered with the children prop absent
(`undefined` at runtime) passes a title equal to the literal string
`"undefined"` — the result of JS `String(undefined)` — to the native
bridge, not an absent or empty title. -/
theorem c10_button_undefined_children_title (sf : Option SFSymbol)
    (width : Option JSNumber) (onPress : Option Callback)
    (tintColor : Option ColorValue) (hidden sb hsb : Option Bool)
    (memo : Option ExpoToolbar.Identifier) (supply : Nat) :
    ∃ item, itemOf (ToolbarButton
        { children := .undef, sf := sf, width := width, onPress := onPress,
          tintColor := tintColor, hidden := hidden, sharesBackground := sb,
          hidesSharedBackground := hsb } memo supply).element = some item ∧
      item.title = some "undefined" ∧
      some "undefined" ≠ (none : Option String) ∧ "undefined" ≠ "" :=
  ⟨_, rfl, rfl, by decide, by decide⟩

end ExpoToolbar
